import Mathlib

/-!
Shallow embedding of the lats-go storefront sources: the TanStack-query
admin screens for categories and car brands, the WatermelonDB model
declarations, the cart tab, and the home-screen query hook. Each
definition transliterates the TypeScript it is named after; definitions
whose doc comment starts with Modelled from the spec stand in for parts
of the repository that are only scaffolded in the visible source.
-/

namespace LatsGo

/-! ## Records shown on the admin screens (part_000 and part_001 interfaces) -/

/-- The Category interface of the categories admin screen. -/
structure Category where
  id : String
  name : String
  nameAr : String
  parentId : Option String := none
  icon : Option String := none
  imageData : Option String := none
deriving DecidableEq, Repr

/-- The CarBrand interface of the car-brands admin screen. -/
structure CarBrand where
  id : String
  name : String
  nameAr : String
  logo : Option String := none
deriving DecidableEq, Repr

/-! ## Optimistic delete (deleteMutation in part_000 lines 230-258 and
part_001 lines 169-197; the two screens share the same logic, so it is
embedded once, over the id projection). The query cache entry for the
collection key is an Option: none means getQueryData returns undefined. -/

/-- Transliterates deleteMutation.onMutate: snapshot the cache entry,
then set it to the previous list with the deleted id filtered out, or to
the empty list when the cache held nothing (old ? old.filter(...) : []).
Returns (new cache entry, context.previousCategories snapshot). -/
def deleteOnMutate {α : Type} (getId : α → String) (d : String)
    (cache : Option (List α)) : Option (List α) × Option (List α) :=
  (some (match cache with
         | some old => old.filter (fun c => getId c ≠ d)
         | none => []),
   cache)

/-- Transliterates deleteMutation.onError: if context.previousCategories
is truthy (any array, undefined is falsy) write it back, else leave the
cache as the optimistic update left it. -/
def deleteOnError {α : Type} (prev : Option (List α))
    (cache : Option (List α)) : Option (List α) :=
  match prev with
  | some l => some l
  | none => cache

/-- The cache entry after a full failed optimistic delete: onMutate runs,
the remote call throws, onError runs with the captured context. -/
def failedOptimisticDelete {α : Type} (getId : α → String) (d : String)
    (cache : Option (List α)) : Option (List α) :=
  let r := deleteOnMutate getId d cache
  deleteOnError r.2 r.1

/-! ## Mutation success handlers (part_000 lines 192-258, part_001 lines
133-197). The cache entry plus an invalidated flag: invalidateQueries
marks the collection key stale so the next read refetches. -/

/-- Query-cache state for one collection key. -/
structure QueryState (α : Type) where
  cache : Option (List α)
  invalidated : Bool
deriving DecidableEq, Repr

/-- Transliterates createMutation.onSuccess on both admin screens: when
result.success, invalidate the collection key; otherwise only a toast is
shown and the cache is untouched. -/
def createOnSuccess {α : Type} (success : Bool) (st : QueryState α) :
    QueryState α :=
  if success then { st with invalidated := true } else st

/-- Transliterates updateMutation.onSuccess on the categories screen:
when result.success, invalidate; otherwise only a toast. -/
def updateOnSuccess {α : Type} (success : Bool) (st : QueryState α) :
    QueryState α :=
  if success then { st with invalidated := true } else st

/-- Transliterates updateMutation.onSuccess on the car-brands screen: it
calls the API directly, so onSuccess always invalidates. -/
def brandUpdateOnSuccess {α : Type} (st : QueryState α) : QueryState α :=
  { st with invalidated := true }

/-- Transliterates deleteMutation.onSuccess on both admin screens: when
result.success only a toast is shown (no invalidation, no cache write);
when result.success is false the collection key is invalidated. -/
def deleteOnSuccess {α : Type} (success : Bool) (st : QueryState α) :
    QueryState α :=
  if success then st else { st with invalidated := true }

/-! ## handleSave on the admin screens (part_000 lines 286-305, part_001
lines 221-238) -/

/-- The categoryData payload built by handleSave on the categories
screen. -/
structure CategoryPayload where
  name : String
  nameAr : String
  parentId : Option String
  icon : Option String
  imageData : Option String
deriving DecidableEq, Repr

/-- The brandData payload built by handleSave on the car-brands screen. -/
structure BrandPayload where
  name : String
  nameAr : String
  logo : Option String
deriving DecidableEq, Repr

/-- The mutation a save issues: create with a payload, or update of an
existing id. -/
inductive SaveMutation (π : Type) where
  | create (payload : π)
  | update (id : String) (payload : π)
deriving DecidableEq, Repr

/-- Models the external JavaScript String.prototype.trim builtin: strip
leading and trailing whitespace. -/
def jsTrim (s : String) : String :=
  String.mk
    (((s.data.dropWhile Char.isWhitespace).reverse.dropWhile
        Char.isWhitespace).reverse)

/-- Transliterates handleSave on the categories screen: when either name
is blank after trimming (the trimmed empty string is falsy) no mutation
is issued; otherwise the payload carries the trimmed names (icon is
trimmed and nulled when blank, image_data nulled when empty) and an
update is issued in edit mode with an editing category, else a create. -/
def categoriesHandleSave (name nameAr : String) (parentId : Option String)
    (icon categoryImage : String) (isEditMode : Bool)
    (editingCategory : Option Category) :
    Option (SaveMutation CategoryPayload) :=
  if jsTrim name = "" ∨ jsTrim nameAr = "" then none
  else
    let payload : CategoryPayload :=
      { name := jsTrim name
        nameAr := jsTrim nameAr
        parentId := parentId
        icon := if jsTrim icon = "" then none else some (jsTrim icon)
        imageData := if categoryImage = "" then none else some categoryImage }
    match isEditMode, editingCategory with
    | true, some e => some (.update e.id payload)
    | _, _ => some (.create payload)

/-- Transliterates handleSave on the car-brands screen: same blank-name
guard, payload with trimmed names and the logo left undefined when the
image string is empty. -/
def carBrandsHandleSave (name nameAr logoImage : String)
    (isEditMode : Bool) (editingBrand : Option CarBrand) :
    Option (SaveMutation BrandPayload) :=
  if jsTrim name = "" ∨ jsTrim nameAr = "" then none
  else
    let payload : BrandPayload :=
      { name := jsTrim name
        nameAr := jsTrim nameAr
        logo := if logoImage = "" then none else some logoImage }
    match isEditMode, editingBrand with
    | true, some e => some (.update e.id payload)
    | _, _ => some (.create payload)

/-- The payload carried by a save mutation. -/
def SaveMutation.payload {π : Type} : SaveMutation π → π
  | .create p => p
  | .update _ p => p

/-! ## CartTab order summary (CartTab.tsx lines 15 and 119-198) -/

/-- The fixed shipping cost constant of CartTab. -/
def SHIPPING_COST : ℚ := 150

/-- The rows the OrderSummary component renders: the savings row is shown
only when getTotalSavings() is positive, and the total row shows
getSubtotal() + SHIPPING_COST. -/
structure OrderSummaryView where
  savingsRow : Option ℚ
  subtotal : ℚ
  shipping : ℚ
  total : ℚ
deriving DecidableEq, Repr

/-- Transliterates the OrderSummary render: rows computed from the
getSubtotal and getTotalSavings props. -/
def renderOrderSummary (subtotal savings : ℚ) : OrderSummaryView :=
  { savingsRow := if savings > 0 then some savings else none
    subtotal := subtotal
    shipping := SHIPPING_COST
    total := subtotal + SHIPPING_COST }

/-- Transliterates ListFooterComponent: the summary renders only when
safeCartItems is non-empty. -/
def cartFooterSummary {α : Type} (cartItems : List α)
    (subtotal savings : ℚ) : Option OrderSummaryView :=
  if cartItems.length > 0 then some (renderOrderSummary subtotal savings)
  else none

/-! ## Staleness windows (part_000 lines 144-156, part_001 lines 106-118,
useHomeScreenQuery.ts lines 45-141 and 198-207) -/

/-- One minute in milliseconds, the unit of the staleTime literals. -/
def minuteMs : Nat := 60 * 1000

/-- A useQuery call site: the query, the logical collection it reads, and
its staleTime in milliseconds. -/
structure QueryDecl where
  queryName : String
  collection : String
  staleTime : Nat
deriving DecidableEq, Repr

/-- Every useQuery call site in the visible source with its staleTime
literal transliterated. -/
def appQueries : List QueryDecl :=
  [⟨"adminCategories", "categories", 2 * minuteMs⟩,
   ⟨"adminCarBrands", "carBrands", 2 * minuteMs⟩,
   ⟨"homeCategories", "categories", 5 * minuteMs⟩,
   ⟨"homeCarBrands", "carBrands", 5 * minuteMs⟩,
   ⟨"homeCarModels", "carModels", 5 * minuteMs⟩,
   ⟨"homeProductBrands", "productBrands", 5 * minuteMs⟩,
   ⟨"homeProducts", "products", 2 * minuteMs⟩,
   ⟨"homePartners", "partners", 5 * minuteMs⟩,
   ⟨"homeFavorites", "favorites", 2 * minuteMs⟩,
   ⟨"homeBanners", "banners", 2 * minuteMs⟩,
   ⟨"categoriesTree", "categories", 5 * minuteMs⟩]

/-- The volatile collections named by the claim. -/
def volatileCollections : List String := ["products", "favorites"]

/-- The catalog and taxonomy collections named by the claim. -/
def catalogCollections : List String :=
  ["categories", "carBrands", "carModels", "productBrands"]

/-- The staleness-window assignment exactly as the claim states it,
written from the words of the spec for comparison with appQueries: every
window lies between 2 and 5 minutes, catalog collections get the longer
window and volatile collections the shorter one. -/
def stalenessClaimStatement : Prop :=
  ∀ q ∈ appQueries,
    2 * minuteMs ≤ q.staleTime ∧ q.staleTime ≤ 5 * minuteMs ∧
    (q.collection ∈ catalogCollections → q.staleTime = 5 * minuteMs) ∧
    (q.collection ∈ volatileCollections → q.staleTime = 2 * minuteMs)

/-- Modelled from the spec: the Query Cache Layer read rule of section
4.5 — a read within the staleness window returns cached data immediately
and only a stale read triggers a background refetch. The cache library
implementing this is external to the repository. -/
def readTriggersRefetch (now fetchedAt staleTime : Nat) : Bool :=
  decide (fetchedAt + staleTime ≤ now)

/-! ## Sync data model (part_003) -/

/-- The SyncMetadata model of part_003 lines 135-140: one watermark row
per table. -/
structure SyncMetadata where
  tableName : String
  lastPulledAt : Nat
deriving DecidableEq, Repr

/-- The outcome of merging one incoming remote record into the local
store. -/
inductive MergeOutcome where
  | insertRemote
  | overwriteWithRemote
  | keepLocal
deriving DecidableEq, Repr

/-- Modelled from the spec: the Pull Reconciler merge step of section 4.3
— no local record inserts the remote one; a clean local record is
overwritten; a dirty local record is overwritten only when the remote
updatedAt is strictly newer, and kept (queued for push) otherwise, ties
favoring the local copy. The reconciler itself is absent from the visible
source, which only declares the sync_metadata watermark table. -/
def mergeIncoming : Bool → Bool → Nat → Nat → MergeOutcome
  | false, _, _, _ => .insertRemote
  | true, false, _, _ => .overwriteWithRemote
  | true, true, localUpdatedAt, remoteUpdatedAt =>
      if localUpdatedAt < remoteUpdatedAt then .overwriteWithRemote
      else .keepLocal

/-! ## Cart store (CartTab.tsx call sites; the store itself is not in the
visible source) -/

/-- A stored cart_items record (part_003 lines 125-132): product id and
quantity. -/
structure StoredCartItem where
  productId : String
  quantity : Int
deriving DecidableEq, Repr

/-- Modelled from the spec: the cart store operation behind the
onUpdateQuantity prop of CartTab — CartItem records are created, updated
and deleted purely locally, and the record is deleted when its quantity
reaches 0 (section 3 CartItem row and Scenario 3). A non-positive
quantity removes the record, a positive one updates it in place. -/
def updateQuantity (cart : List StoredCartItem) (pid : String) (q : Int) :
    List StoredCartItem :=
  if q ≤ 0 then cart.filter (fun i => i.productId ≠ pid)
  else cart.map (fun i => if i.productId = pid then { i with quantity := q } else i)

/-- Transliterates the decrement button of renderCartItem (CartTab.tsx
lines 92-114): it calls onUpdateQuantity with the product id of the
rendered item and its quantity minus one. -/
def decrementCartItem (cart : List StoredCartItem) (item : StoredCartItem) :
    List StoredCartItem :=
  updateQuantity cart item.productId (item.quantity - 1)

/-! ## Model field declarations (part_003) -/

/-- One decorated field declaration: its column name and whether the
declared type admits null. -/
structure FieldDecl where
  column : String
  nullable : Bool
deriving DecidableEq, Repr

/-- One model class: its table name and field declarations. -/
structure ModelSchema where
  table : String
  fields : List FieldDecl
deriving DecidableEq, Repr

/-- The CarBrand model declarations (part_003 lines 10-19). -/
def carBrandSchema : ModelSchema :=
  ⟨"car_brands",
   [⟨"server_id", false⟩, ⟨"name", false⟩, ⟨"name_ar", false⟩,
    ⟨"logo", true⟩, ⟨"created_at", false⟩, ⟨"updated_at", false⟩]⟩

/-- The CarModel model declarations (part_003 lines 22-45). -/
def carModelSchema : ModelSchema :=
  ⟨"car_models",
   [⟨"server_id", false⟩, ⟨"brand_id", false⟩, ⟨"name", false⟩,
    ⟨"name_ar", false⟩, ⟨"year_start", true⟩, ⟨"year_end", true⟩,
    ⟨"image_url", true⟩, ⟨"description", true⟩, ⟨"description_ar", true⟩,
    ⟨"variants", true⟩, ⟨"created_at", false⟩, ⟨"updated_at", false⟩]⟩

/-- The ProductBrand model declarations (part_003 lines 48-59). -/
def productBrandSchema : ModelSchema :=
  ⟨"product_brands",
   [⟨"server_id", false⟩, ⟨"name", false⟩, ⟨"name_ar", true⟩,
    ⟨"logo", true⟩, ⟨"country_of_origin", true⟩,
    ⟨"country_of_origin_ar", true⟩, ⟨"created_at", false⟩,
    ⟨"updated_at", false⟩]⟩

/-- The Category model declarations (part_003 lines 62-73). -/
def categorySchema : ModelSchema :=
  ⟨"categories",
   [⟨"server_id", false⟩, ⟨"name", false⟩, ⟨"name_ar", false⟩,
    ⟨"parent_id", true⟩, ⟨"icon", true⟩, ⟨"sort_order", false⟩,
    ⟨"created_at", false⟩, ⟨"updated_at", false⟩]⟩

/-- The Product model declarations (part_003 lines 76-94). -/
def productSchema : ModelSchema :=
  ⟨"products",
   [⟨"server_id", false⟩, ⟨"name", false⟩, ⟨"name_ar", false⟩,
    ⟨"description", true⟩, ⟨"description_ar", true⟩, ⟨"price", false⟩,
    ⟨"sku", false⟩, ⟨"product_brand_id", true⟩, ⟨"category_id", true⟩,
    ⟨"image_url", true⟩, ⟨"images", true⟩, ⟨"car_model_ids", true⟩,
    ⟨"stock_quantity", false⟩, ⟨"hidden_status", false⟩,
    ⟨"created_at", false⟩, ⟨"updated_at", false⟩]⟩

/-- The Favorite model declarations (part_003 lines 114-122): serverId is
the only nullable server_id column among the syncable models. -/
def favoriteSchema : ModelSchema :=
  ⟨"favorites",
   [⟨"server_id", true⟩, ⟨"user_id", false⟩, ⟨"product_id", false⟩,
    ⟨"created_at", false⟩, ⟨"updated_at", false⟩]⟩

/-- The CartItem model declarations (part_003 lines 125-132): no
server_id column at all. -/
def cartItemSchema : ModelSchema :=
  ⟨"cart_items",
   [⟨"product_id", false⟩, ⟨"quantity", false⟩, ⟨"created_at", false⟩,
    ⟨"updated_at", false⟩]⟩

/-- The syncable entity models, every model of part_003 except CartItem
and the sync_metadata watermark table. -/
def syncableSchemas : List ModelSchema :=
  [carBrandSchema, carModelSchema, productBrandSchema, categorySchema,
   productSchema, favoriteSchema]

/-- Whether a model declares a column. -/
def hasColumn (m : ModelSchema) (c : String) : Bool :=
  m.fields.any fun f => f.column == c

/-- Whether a model declares a column with a nullable type. -/
def columnNullable (m : ModelSchema) (c : String) : Bool :=
  m.fields.any fun f => f.column == c && f.nullable

/-! ## Parsing getters (part_003 lines 38-45 and 96-111) -/

/-- A JSON value, the result type of the external JSON.parse call. -/
inductive Json where
  | null
  | bool (b : Bool)
  | num (n : Int)
  | str (s : String)
  | arr (elems : List Json)
  | obj (fields : List (String × Json))

/-- Transliterates the try/catch getter pattern shared by variantsParsed,
imagesParsed and carModelIdsParsed: a null or empty field is falsy and
yields the empty array without parsing, a parse failure is caught and
yields the empty array, and otherwise the value JSON.parse produced is
returned as is. The external JSON.parse is passed in as parse. -/
def parsedJsonField (parse : String → Option Json) (field : Option String) :
    Json :=
  match field with
  | none => Json.arr []
  | some s =>
      if s = "" then Json.arr []
      else
        match parse s with
        | some v => v
        | none => Json.arr []

/-- The CarModel record fields the getter reads. -/
structure CarModelRecord where
  serverId : String
  brandId : String
  name : String
  nameAr : String
  variants : Option String := none

/-- The Product record fields the getters read. -/
structure ProductRecord where
  serverId : String
  name : String
  nameAr : String
  sku : String
  images : Option String := none
  carModelIds : Option String := none

/-- Transliterates CarModel.variantsParsed. -/
def CarModelRecord.variantsParsed (parse : String → Option Json)
    (m : CarModelRecord) : Json :=
  parsedJsonField parse m.variants

/-- Transliterates Product.imagesParsed. -/
def ProductRecord.imagesParsed (parse : String → Option Json)
    (p : ProductRecord) : Json :=
  parsedJsonField parse p.images

/-- Transliterates Product.carModelIdsParsed. -/
def ProductRecord.carModelIdsParsed (parse : String → Option Json)
    (p : ProductRecord) : Json :=
  parsedJsonField parse p.carModelIds

/-- A concrete stand-in for the external JSON.parse at one probe point:
it agrees with JSON.parse on the string 5, which parses to the JSON
number 5 (a valid JSON document that is not an array). -/
def parseProbe : String → Option Json :=
  fun s => if s = "5" then some (Json.num 5) else none

end LatsGo

namespace LatsGo

/-! ## C1 and C2 theorems -/

/-- C1 counterexample: with no cached collection (getQueryData returned
undefined), a failed optimistic delete leaves the cache holding the empty
list written by onMutate, while the pre-mutation cache state held no
entry at all, so the post-failure state differs from the pre-mutation
state. -/
theorem c1_rollback_counterexample :
    failedOptimisticDelete Category.id "x" (none : Option (List Category)) = some [] ∧
    (none : Option (List Category)) ≠ some [] := by
  constructor
  · rfl
  · simp

/-- C1 (amended): on both admin screens, when the cache held a collection
before the optimistic delete, onError restores exactly that snapshot;
when the cache held no collection, the post-failure cache is the empty
list left by the optimistic update (the undefined snapshot is falsy, so
onError writes nothing back). -/
theorem c1_rollback_amended (d e : String) (cats : Option (List Category))
    (brands : Option (List CarBrand)) :
    failedOptimisticDelete Category.id d cats =
      (match cats with
       | some l => some l
       | none => some []) ∧
    failedOptimisticDelete CarBrand.id e brands =
      (match brands with
       | some l => some l
       | none => some []) := by
  constructor
  · cases cats <;> rfl
  · cases brands <;> rfl

/-- C2: on both admin screens, onMutate immediately replaces the cached
collection by the previous collection with exactly the records whose id
equals the deleted id removed: the new list is a sublist of the old one
(every other record unchanged, in order), a record belongs to it iff it
belonged to the old list and its id differs from the deleted id, and
each record keeps its multiplicity unless its id is the deleted one, in
which case its count drops to zero; a cache holding no collection
becomes the empty list. -/
theorem c2_onmutate_filters (d e : String) (cats : List Category)
    (brands : List CarBrand) :
    (∃ l, (deleteOnMutate Category.id d (some cats)).1 = some l ∧
      l.Sublist cats ∧ (∀ c, c ∈ l ↔ (c ∈ cats ∧ c.id ≠ d)) ∧
      (∀ c : Category, l.count c = if c.id = d then 0 else cats.count c)) ∧
    (deleteOnMutate Category.id d (none : Option (List Category))).1 = some [] ∧
    (∃ l, (deleteOnMutate CarBrand.id e (some brands)).1 = some l ∧
      l.Sublist brands ∧ (∀ b, b ∈ l ↔ (b ∈ brands ∧ b.id ≠ e)) ∧
      (∀ b : CarBrand, l.count b = if b.id = e then 0 else brands.count b)) ∧
    (deleteOnMutate CarBrand.id e (none : Option (List CarBrand))).1 = some [] := by
  refine ⟨⟨cats.filter (fun c => c.id ≠ d), rfl, List.filter_sublist _, ?_, ?_⟩, rfl,
    ⟨brands.filter (fun b => b.id ≠ e), rfl, List.filter_sublist _, ?_, ?_⟩, rfl⟩
  · intro c
    simp [List.mem_filter]
  · intro c
    by_cases hc : c.id = d
    · rw [if_pos hc, List.count_eq_zero]
      intro hmem
      have hne := (List.mem_filter.mp hmem).2
      simp only [decide_eq_true_eq] at hne
      exact hne hc
    · rw [if_neg hc]
      exact List.count_filter (decide_eq_true hc)
  · intro b
    simp [List.mem_filter]
  · intro b
    by_cases hb : b.id = e
    · rw [if_pos hb, List.count_eq_zero]
      intro hmem
      have hne := (List.mem_filter.mp hmem).2
      simp only [decide_eq_true_eq] at hne
      exact hne hb
    · rw [if_neg hb]
      exact List.count_filter (decide_eq_true hb)

/-! ## C3 theorems -/

/-- C3 counterexample: a delete mutation that completes successfully
(result.success is true) does not invalidate the collection key: starting
from a non-invalidated cache state, onSuccess leaves invalidated false
(it only shows a toast). -/
theorem c3_invalidate_counterexample :
    (deleteOnSuccess true
      ({ cache := some [], invalidated := false } : QueryState Category)).invalidated
      = false := rfl

/-- C3 (amended): create and update mutations invalidate the collection
key when they complete successfully (the car-brands update mutation
invalidates unconditionally on resolve), but a successful delete leaves
the query state exactly as the optimistic removal left it, invalidating
only when the resolved result reports failure. -/
theorem c3_invalidate_amended {α : Type} (st : QueryState α) :
    (createOnSuccess true st).invalidated = true ∧
    (updateOnSuccess true st).invalidated = true ∧
    (brandUpdateOnSuccess st).invalidated = true ∧
    deleteOnSuccess true st = st ∧
    (deleteOnSuccess false st).invalidated = true := by
  refine ⟨rfl, rfl, rfl, rfl, rfl⟩

/-! ## C9 theorem -/

/-- C9: on both admin screens, handleSave issues no mutation when either
name is blank after trimming, and when both names are non-blank it issues
exactly one mutation whose payload carries the trimmed names. -/
theorem c9_handle_save_validation (name nameAr : String)
    (parentId : Option String) (icon categoryImage logoImage : String)
    (isEditMode : Bool) (ec : Option Category) (eb : Option CarBrand) :
    ((jsTrim name = "" ∨ jsTrim nameAr = "") →
      categoriesHandleSave name nameAr parentId icon categoryImage isEditMode ec = none ∧
      carBrandsHandleSave name nameAr logoImage isEditMode eb = none) ∧
    (jsTrim name ≠ "" → jsTrim nameAr ≠ "" →
      (∃ m, categoriesHandleSave name nameAr parentId icon categoryImage isEditMode ec
          = some m ∧
        m.payload.name = jsTrim name ∧ m.payload.nameAr = jsTrim nameAr) ∧
      (∃ m, carBrandsHandleSave name nameAr logoImage isEditMode eb = some m ∧
        m.payload.name = jsTrim name ∧ m.payload.nameAr = jsTrim nameAr)) := by
  constructor
  · intro h
    exact ⟨by simp only [categoriesHandleSave, if_pos h],
           by simp only [carBrandsHandleSave, if_pos h]⟩
  · intro h1 h2
    have h : ¬ (jsTrim name = "" ∨ jsTrim nameAr = "") := by
      rintro (h | h)
      · exact h1 h
      · exact h2 h
    constructor
    · simp only [categoriesHandleSave, if_neg h]
      cases isEditMode with
      | false => exact ⟨_, rfl, rfl, rfl⟩
      | true =>
          cases ec with
          | none => exact ⟨_, rfl, rfl, rfl⟩
          | some e => exact ⟨_, rfl, rfl, rfl⟩
    · simp only [carBrandsHandleSave, if_neg h]
      cases isEditMode with
      | false => exact ⟨_, rfl, rfl, rfl⟩
      | true =>
          cases eb with
          | none => exact ⟨_, rfl, rfl, rfl⟩
          | some e => exact ⟨_, rfl, rfl, rfl⟩

/-! ## C10 theorem -/

/-- C10: for every non-empty cart the footer renders the order summary,
and the total it displays is getSubtotal() plus the fixed shipping cost
of 150, independent of the savings amount and of the number of items. -/
theorem c10_order_total {α : Type} (cartItems : List α)
    (subtotal savings : ℚ) (h : cartItems ≠ []) :
    cartFooterSummary cartItems subtotal savings
      = some (renderOrderSummary subtotal savings) ∧
    (renderOrderSummary subtotal savings).total = subtotal + 150 ∧
    (∀ savings₂ : ℚ, ∀ β : Type, ∀ _cartItems₂ : List β,
      (renderOrderSummary subtotal savings₂).total
        = (renderOrderSummary subtotal savings).total) := by
  refine ⟨?_, rfl, fun _ _ _ => rfl⟩
  have hl : 0 < cartItems.length := List.length_pos.mpr h
  simp [cartFooterSummary, hl]

/-- C10 witness: the theorem instantiated at a one-item cart with
subtotal 10 and savings 5. -/
theorem c10_order_total_witness :
    cartFooterSummary [0] (10 : ℚ) 5 = some (renderOrderSummary 10 5) ∧
    (renderOrderSummary (10 : ℚ) 5).total = 10 + 150 :=
  ⟨(c10_order_total [0] 10 5 (by simp)).1, (c10_order_total [0] 10 5 (by simp)).2.1⟩

/-! ## C4 theorem -/

/-- C4: for a dirty local record and an incoming remote record with the
same serverId, the merge keeps the copy whose updatedAt is strictly
greater, and keeps the local dirty copy when the two timestamps are
equal. -/
theorem c4_conflict_rule :
    (∀ localAt remoteAt : Nat, localAt < remoteAt →
      mergeIncoming true true localAt remoteAt = MergeOutcome.overwriteWithRemote) ∧
    (∀ localAt remoteAt : Nat, remoteAt < localAt →
      mergeIncoming true true localAt remoteAt = MergeOutcome.keepLocal) ∧
    (∀ t : Nat, mergeIncoming true true t t = MergeOutcome.keepLocal) := by
  refine ⟨fun localAt remoteAt h => ?_, fun localAt remoteAt h => ?_, fun t => ?_⟩
  · simp [mergeIncoming, h]
  · have hn : ¬ localAt < remoteAt := by omega
    simp [mergeIncoming, hn]
  · simp [mergeIncoming]

/-! ## C5 theorems -/

/-- C5 counterexample: the staleness-window assignment stated by the
claim is false on the transliterated useQuery call sites — the admin
categories query reads the categories catalog collection with the
2-minute window, not the longer one. -/
theorem c5_staleness_counterexample : ¬ stalenessClaimStatement := by
  intro h
  have hq := h ⟨"adminCategories", "categories", 2 * minuteMs⟩ (by simp [appQueries])
  have h5 := hq.2.2.1 (by simp [catalogCollections])
  simp [minuteMs] at h5

/-- C5 (amended): every staleness window in the source is exactly 2 or 5
minutes, hence between 2 and 5 minutes; outside the two admin screens the
catalog collections get the 5-minute window and the volatile collections
(products, favorites) the 2-minute one; the admin categories and
car-brands queries use the 2-minute window; and a read within the window
does not trigger a refetch. -/
theorem c5_staleness_amended :
    (∀ q ∈ appQueries,
      q.staleTime = 2 * minuteMs ∨ q.staleTime = 5 * minuteMs) ∧
    (∀ q ∈ appQueries,
      2 * minuteMs ≤ q.staleTime ∧ q.staleTime ≤ 5 * minuteMs) ∧
    (∀ q ∈ appQueries,
      (q.queryName = "adminCategories" ∨ q.queryName = "adminCarBrands") →
        q.staleTime = 2 * minuteMs) ∧
    (∀ q ∈ appQueries,
      ¬ (q.queryName = "adminCategories" ∨ q.queryName = "adminCarBrands") →
        (q.collection ∈ catalogCollections → q.staleTime = 5 * minuteMs) ∧
        (q.collection ∈ volatileCollections → q.staleTime = 2 * minuteMs)) ∧
    (∀ now fetchedAt staleTime : Nat, now < fetchedAt + staleTime →
      readTriggersRefetch now fetchedAt staleTime = false) := by
  refine ⟨by decide, by decide, by decide, by decide,
    fun now fetchedAt staleTime h => ?_⟩
  simp only [readTriggersRefetch, decide_eq_false_iff_not]
  omega

/-! ## C6 theorem -/

/-- C6: decrementing a cart item whose quantity is 1 removes every record
with that product id from the cart, and a decrement never leaves a record
with quantity 0 — from a cart whose quantities are all at least 1, every
record surviving a decrement still has quantity at least 1. -/
theorem c6_decrement_deletes_at_zero :
    (∀ cart (item : StoredCartItem), item.quantity = 1 →
      ∀ j ∈ decrementCartItem cart item, j.productId ≠ item.productId) ∧
    (∀ cart (item : StoredCartItem), (∀ i ∈ cart, 1 ≤ i.quantity) →
      ∀ j ∈ decrementCartItem cart item, 1 ≤ j.quantity) := by
  constructor
  · intro cart item h j hj
    simp only [decrementCartItem, updateQuantity, h] at hj
    norm_num at hj
    exact hj.2
  · intro cart item hall j hj
    simp only [decrementCartItem, updateQuantity] at hj
    by_cases hq : item.quantity - 1 ≤ 0
    · rw [if_pos hq] at hj
      exact hall j (List.mem_filter.mp hj).1
    · rw [if_neg hq] at hj
      obtain ⟨i, hi, rfl⟩ := List.mem_map.mp hj
      by_cases hp : i.productId = item.productId
      · rw [if_pos hp]
        show (1 : Int) ≤ item.quantity - 1
        omega
      · rw [if_neg hp]
        exact hall i hi

/-! ## C7 theorem -/

/-- C7: every syncable entity model declares a server_id column, CartItem
declares none, and among the syncable models the server_id column is
nullable exactly for Favorite. -/
theorem c7_server_id_declarations :
    (syncableSchemas.all fun m => hasColumn m "server_id") = true ∧
    hasColumn cartItemSchema "server_id" = false ∧
    (syncableSchemas.all fun m =>
      columnNullable m "server_id" == (m.table == "favorites")) = true := by
  refine ⟨by decide, by decide, by decide⟩

/-! ## C8 theorems -/

/-- C8 counterexample: on a CarModel record whose variants field holds
the valid JSON document 5, variantsParsed returns the JSON number 5,
which is not an array, so the getter does not return a parsed array on
every valid JSON input. -/
theorem c8_parsing_counterexample :
    CarModelRecord.variantsParsed parseProbe
      { serverId := "s1", brandId := "b1", name := "m", nameAr := "m",
        variants := some "5" } = Json.num 5 ∧
    (∀ elems : List Json, Json.num 5 ≠ Json.arr elems) := by
  refine ⟨rfl, fun elems h => ?_⟩
  cases h

/-- C8 (amended): the parsing getters are total and never throw — for
every stored value, variantsParsed, imagesParsed and carModelIdsParsed
return the value JSON.parse produced when the field holds non-empty JSON
that parses (the parsed array whenever that JSON is an array), and the
empty list when the field is null, empty, or fails to parse. -/
theorem c8_parsing_getters_total (parse : String → Option Json)
    (m : CarModelRecord) (p : ProductRecord) :
    parsedJsonField parse none = Json.arr [] ∧
    parsedJsonField parse (some "") = Json.arr [] ∧
    (∀ s, parse s = none → parsedJsonField parse (some s) = Json.arr []) ∧
    (∀ s v, s ≠ "" → parse s = some v → parsedJsonField parse (some s) = v) ∧
    m.variantsParsed parse = parsedJsonField parse m.variants ∧
    p.imagesParsed parse = parsedJsonField parse p.images ∧
    p.carModelIdsParsed parse = parsedJsonField parse p.carModelIds := by
  refine ⟨rfl, rfl, fun s hs => ?_, fun s v hs hv => ?_, rfl, rfl, rfl⟩
  · by_cases he : s = ""
    · simp [parsedJsonField, he]
    · simp [parsedJsonField, he, hs]
  · simp [parsedJsonField, hs, hv]

end LatsGo
